import Mathlib

/-!
Verification development for the `linkedin-scraper-api` repository.

The repository has two pipeline variants:
* `src/server.js` — the SSE streaming variant: `scrapeProfiles` drives a
  paginated listing (bounded to 2 pages), collects the outer HTML of every
  result card, then submits the collected fragments to the OpenAI chat API
  and degrades every fragment to a raw-HTML record if any request fails.
* `src/unnamed/part_000` — the synchronous enrichment variant: its
  `scrapeProfiles` iterates over the result cards of a single listing page,
  opens each profile in a secondary page and extracts the current company
  from an ARIA label, isolating per-entity failures.

Both are embedded shallowly below.  Browser, network and LLM effects are
modelled by explicit "world" records of oracles giving the outcome of each
awaited external step; the embedded functions replay the exact control flow
of the source over those oracles.  Progress events (`sendEvent`) are
accumulated in a list in emission order.
-/

/-- Boolean test that is `true` exactly on `Except.error` (a rejected
promise / thrown error). -/
def exceptFailed {ε α : Type} : Except ε α → Bool
  | .error _ => true
  | .ok _ => false

/-- The payload of an `Except.ok`, with `[]` as the (unreachable) default. -/
def exceptVal {ε : Type} : Except ε (List String) → List String
  | .ok v => v
  | .error _ => []

/-- String trimming (the `.trim()` of JS), spelled out over the character
list so it computes by kernel reduction: whitespace is stripped from both
ends. -/
def jsTrim (s : String) : String :=
  String.mk (((s.toList.dropWhile Char.isWhitespace).reverse.dropWhile
    Char.isWhitespace).reverse)

/-- Whether `pre` is a prefix of `s`, over the character lists. -/
def strStartsWith (s pre : String) : Bool := pre.toList.isPrefixOf s.toList

/-- Whether `suf` is a suffix of `s`, over the character lists. -/
def strEndsWith (s suf : String) : Bool :=
  suf.toList.reverse.isPrefixOf s.toList.reverse

/-- Dropping the first `n` characters of `s`. -/
def strDrop (s : String) (n : Nat) : String := String.mk (s.toList.drop n)

/-- Dropping the last `n` characters of `s`. -/
def strDropRight (s : String) (n : Nat) : String :=
  String.mk ((s.toList.reverse.drop n).reverse)

namespace Server

/-- One `sendEvent(phase, data)` call: `data.message` plus the optional
`data.error` string (present only on `error`-phase events in the source). -/
structure Event where
  phase : String
  message : String
  errorText : Option String
deriving Repr, DecidableEq

/-- Event with no error payload. -/
def ev (phase message : String) : Event := ⟨phase, message, none⟩

/-- Error-phase event (`sendEvent('error', \x7bmessage, error\x7d)`). -/
def evErr (message errorText : String) : Event := ⟨"error", message, some errorText⟩

/-- Outcomes of the awaited browser steps of one harvest invocation, indexed
by the pagination iteration number (`currentPage` in the source, 1-based):

* `load i` — `page.goto(currentUrl, \x7bwaitUntil: 'load', timeout: 120000\x7d)`;
* `waitCards i` — `page.waitForSelector('div[data-view-name=...]', 30000)`;
* `cards i` — the outer HTML strings returned by `page.$$eval(...)`;
* `nextButtons i` — identities of the elements `page.$$('button[aria-label="Next"]')`;
* `clickRes i` — the `click()` on the last of those buttons;
* `navRes i` — `page.waitForNavigation(30000)` followed by `page.url()`. -/
structure PageWorld where
  load : Nat → Except String Unit
  waitCards : Nat → Except String Unit
  cards : Nat → List String
  nextButtons : Nat → List Nat
  clickRes : Nat → Except String Unit
  navRes : Nat → Except String String

/-- Observable outcome of the pagination `while` loop of `scrapeProfiles`
(src/server.js lines 58–109): the events emitted inside the loop, the
per-iteration card batches pushed into `finalHtml`, the identities of the
next-buttons actually clicked, and — when `page.goto` or
`page.waitForSelector` threw — the uncaught error that aborts the whole
invocation. -/
structure LoopOut where
  events : List Event
  batches : List (List String)
  clicks : List Nat
  fatal : Option String
deriving Repr, DecidableEq

/-- The pagination `while (currentPage <= maxPages)` loop of
src/server.js.  `fuel` is the number of remaining admissible iterations
(`maxPages + 1 - currentPage`, so the loop guard `currentPage <= maxPages`
is exactly `fuel > 0`); it decreases only on the successful-advance branch,
mirroring `currentPage++`.  All other branches `break` (returning with
`fatal := none`) or throw (returning with `fatal := some _`). -/
def pagLoop (w : PageWorld) (maxPages : Nat) :
    Nat → Nat → String → List Event → List (List String) → List Nat → LoopOut
  | 0, _, _, events, batches, clicks =>
      { events := events, batches := batches, clicks := clicks, fatal := none }
  | fuel+1, p, _, events, batches, clicks =>
      let e1 := events ++ [ev "playwright-scraping" "Loading LinkedIn page"]
      match w.load p with
      | .error err => { events := e1, batches := batches, clicks := clicks, fatal := some err }
      | .ok _ =>
        let e2 := e1 ++ [ev "playwright-scraping" "LinkedIn page loaded",
                         ev "playwright-scraping" "Waiting for search result cards"]
        match w.waitCards p with
        | .error err => { events := e2, batches := batches, clicks := clicks, fatal := some err }
        | .ok _ =>
          let cardsHtml := w.cards p
          let e3 := e2 ++ [ev "playwright-scraping" "Search result cards found",
                           ev "playwright-scraping" ("Extracting profile cards on " ++ toString p),
                           ev "playwright-scraping" ("Extracted profile cards on page " ++ toString p)]
          let batches2 := batches ++ [cardsHtml]
          if p < maxPages then
            let e4 := e3 ++ [ev "playwright-scraping" "Attempting to navigate to next page"]
            let nbs := w.nextButtons p
            if nbs.length > 0 then
              let clicks2 := clicks ++ [nbs.getLastD 0]
              match w.clickRes p with
              | .error err =>
                  { events := e4 ++ [evErr "Error navigating to next page" err],
                    batches := batches2, clicks := clicks2, fatal := none }
              | .ok _ =>
                let e5 := e4 ++ [ev "playwright-scraping" "Clicked next button. Waiting for navigation"]
                match w.navRes p with
                | .error err =>
                    { events := e5 ++ [evErr "Error navigating to next page" err],
                      batches := batches2, clicks := clicks2, fatal := none }
                | .ok newUrl =>
                    pagLoop w maxPages fuel (p+1) newUrl
                      (e5 ++ [ev "playwright-scraping" "Browser navigated to next page"])
                      batches2 clicks2
            else
              { events := e4 ++ [ev "playwright-scraping" "No next button found. Ending pagination."],
                batches := batches2, clicks := clicks, fatal := none }
          else
            { events := e3 ++ [ev "playwright-scraping" "Pagination limit reached."],
              batches := batches2, clicks := clicks, fatal := none }

/-- The pagination loop as entered by `scrapeProfiles`: `maxPages = 2`,
`currentPage = 1` (hence fuel `2`), starting from the caller-supplied URL
with empty accumulators. -/
def paginate (w : PageWorld) (url : String) : LoopOut :=
  pagLoop w 2 2 1 url [] [] []

/-- A structured record of the streaming pipeline: either an object parsed
out of an OpenAI response (kept opaque), or the degraded substitute
`\x7berror: 'OpenAI processing failed', rawHtml\x7d` built in the catch block. -/
inductive SRecord where
  | svc (v : String)
  | degraded (errorText : String) (rawHtml : String)
deriving Repr, DecidableEq

/-- The `finalHtml.map((pageCards, index) => testOpenAIBatch(pageCards)...)`
stage joined by `Promise.all` (src/server.js lines 116–128).  `svc i html`
is the settled outcome of `testOpenAIBatch(html)` for the fragment at index
`i` (ok: the parsed JSON array, kept as opaque strings).  Returns the
per-fragment progress events (in index order, a linearization of the
concurrent completion order) and the `Promise.all` outcome: the first
rejection in index order, or the list of all per-fragment arrays. -/
def extractAll (svc : Nat → String → Except String (List String)) :
    List (Nat × String) → List Event × Except String (List (List String))
  | [] => ([], .ok [])
  | (i, html) :: rest =>
    let tail := extractAll svc rest
    match svc i html with
    | .ok r =>
        (ev "openai-extracting" ("Successfully processed profile " ++ toString (i+1)) :: tail.1,
         match tail.2 with
         | .ok ls => .ok (r :: ls)
         | .error e => .error e)
    | .error e =>
        (evErr ("Failed to process profile " ++ toString (i+1)) e :: tail.1, .error e)

/-- The eight paired browser-setup events emitted before the pagination loop
(src/server.js lines 33–55).  Launch, context creation, cookie injection and
page creation are modelled as always succeeding (no claim concerns their
failure); the cookie array itself is observationally irrelevant here since
`context.addCookies` emits no event of its own. -/
def setupEvents : List Event :=
  [ev "browser-setup" "Launching browser", ev "browser-setup" "Browser launched",
   ev "browser-setup" "Creating browser context", ev "browser-setup" "Browser context created",
   ev "browser-setup" "Adding cookies", ev "browser-setup" "Cookies added",
   ev "browser-setup" "Opening new page", ev "browser-setup" "New page opened"]

/-- Full observable outcome of one `scrapeProfiles(url, fields, cookies,
sendEvent)` invocation: its settled value (`.ok results` for the returned
`\x7bresults\x7d` payload, `.error` for an uncaught throw), every event passed to
`sendEvent` before settling, whether `browser.close()` was reached, and the
ghost observations of the pagination loop (batches, clicked buttons). -/
structure ScrapeOutcome where
  result : Except String (List SRecord)
  events : List Event
  browserClosed : Bool
  batches : List (List String)
  clicks : List Nat
deriving Repr

/-- Shallow embedding of `scrapeProfiles` (src/server.js lines 31–146).
Because `finalHtml.push(...cardsHtml)` spreads each page's card array,
`finalHtml` is the *flat* list of fragments (`batches.join`), and the
extraction stage maps over it one fragment at a time.  `finalHtml.flat()`
in the catch block is the identity on this already-flat list and is modelled
as such.  There is no try/finally around the loop, so a `fatal` pagination
error propagates out with `browser.close()` (line 142) never executed. -/
def scrapeProfiles (w : PageWorld) (svc : Nat → String → Except String (List String))
    (url : String) (fields : List String) (cookies : Option (List String)) : ScrapeOutcome :=
  let lo := paginate w url
  match lo.fatal with
  | some e =>
      { result := .error e, events := setupEvents ++ lo.events, browserClosed := false,
        batches := lo.batches, clicks := lo.clicks }
  | none =>
      let finalHtml := lo.batches.flatten
      let ex := extractAll svc finalHtml.enum
      let stage :=
        match ex.2 with
        | .ok ls =>
            (ex.1 ++ [ev "openai-extracting" "All pages processed successfully."],
             ls.flatten.map SRecord.svc)
        | .error e =>
            (ex.1 ++ [evErr "OpenAI error processing pages" e],
             finalHtml.map fun html => SRecord.degraded "OpenAI processing failed" html)
      { result := .ok stage.2,
        events := setupEvents ++ lo.events ++
          [ev "openai-extracting" "Starting parallel processing of pages"] ++ stage.1 ++
          [ev "finishing" "Closing browser", ev "finishing" "Browser closed",
           ev "finishing" "Scraping finished"],
        browserClosed := true, batches := lo.batches, clicks := lo.clicks }

/-- The body of the OpenAI chat response as far as `testOpenAIBatch` reads
it: `data.error` (the API error object, reduced to its `.message`), and
`data.choices[0].message.content`. -/
structure OpenAIResponse where
  errorObj : Option String
  content : String
deriving Repr, DecidableEq

/-- The code-fence strip `content.replace(/^```json\n?|\n?```$/g, '')`
(src/server.js line 183): a leading "```json" with optional newline and a
trailing "```" with optional preceding newline are removed. -/
def stripFence (s : String) : String :=
  let s1 := if strStartsWith s "```json\n" then strDrop s 8
            else if strStartsWith s "```json" then strDrop s 7 else s
  if strEndsWith s1 "\n```" then strDropRight s1 4
  else if strEndsWith s1 "```" then strDropRight s1 3 else s1

/-- The user-message text built by `testOpenAIBatch` (src/server.js line
165).  The function is invoked with a single fragment *string*, so
`profilesHtml.length` is the string's character count and
`JSON.stringify(profilesHtml)` quotes it (escaping elided — no input used
below needs it). -/
def openAIUserContent (profilesHtml : String) : String :=
  "Extract information from these LinkedIn profile cards (" ++
    toString profilesHtml.length ++
    " cards). For each card, create an object with these fields: name, headline, location, currentCompany, profilePhotoUrl, profileUrl. Return ONLY a JSON array of these objects. Do not include any other text or explanation. Profile Cards HTML: " ++
    "\"" ++ profilesHtml ++ "\""

/-- Response handling of `testOpenAIBatch` (src/server.js lines 173–186),
abstracted over the fetch outcome `resp` and over `JSON.parse` (`parse`,
`none` meaning the parse throws).  `data.error` is checked first and throws;
otherwise the trimmed content is parsed directly, then — only if that
throws — once more after `stripFence`; a second parse failure rejects the
promise with the parse error. -/
def testOpenAIBatch (parse : String → Option (List String)) (resp : OpenAIResponse) :
    Except String (List String) :=
  match resp.errorObj with
  | some m => .error ("OpenAI API Error: " ++ m)
  | none =>
    let content := jsTrim resp.content
    match parse content with
    | some v => .ok v
    | none =>
      match parse (stripFence content) with
      | some v => .ok v
      | none => .error "SyntaxError: unexpected token in JSON"

/-- One write performed on the SSE response object of the GET /scrape
handler: the `res.writeHead` call, one `sendSSE(res, event, data)` pair of
writes (identified by the event name, i.e. the phase), or `res.end()`. -/
inductive Wr where
  | head (status : Nat) (headers : List (String × String))
  | sse (event : String)
  | endRes
deriving Repr, DecidableEq

/-- The headers passed to `res.writeHead(200, ...)` (src/server.js 205–209). -/
def sseHeaders : List (String × String) :=
  [("Content-Type", "text/event-stream"), ("Cache-Control", "no-cache"),
   ("Connection", "keep-alive")]

/-- Shallow embedding of the GET /scrape handler (src/server.js lines
204–234) as the ordered list of writes it performs.  `url` is
`req.query.url`; `fieldsQ` and `cookiesQ` are the outcomes of
`JSON.parse` on the optional `fields`/`cookies` query parameters (their
throws are caught by the surrounding try).  The handler writes the 200
event-stream head before anything else; a missing url sends an in-stream
`error` event and ends; a throw from `scrapeProfiles` is caught after the
events it already emitted were written, and is surfaced as an in-stream
`error` event; on success a `finishing` and a `result` event follow the
pipeline's own events. -/
def appGetScrape (w : PageWorld) (svc : Nat → String → Except String (List String))
    (url : Option String) (fieldsQ : Except String (List String))
    (cookiesQ : Except String (Option (List String))) : List Wr :=
  Wr.head 200 sseHeaders ::
    (match url with
     | none => [Wr.sse "error", Wr.endRes]
     | some u =>
       match fieldsQ with
       | .error _ => [Wr.sse "error", Wr.endRes]
       | .ok fields =>
         match cookiesQ with
         | .error _ => [Wr.sse "error", Wr.endRes]
         | .ok cookies =>
           let out := scrapeProfiles w svc u fields cookies
           Wr.sse "browser-setup" ::
             ((out.events.map fun e => Wr.sse e.phase) ++
              (match out.result with
               | .ok _ => [Wr.sse "finishing", Wr.sse "result", Wr.endRes]
               | .error _ => [Wr.sse "error", Wr.endRes])))

end Server

namespace Enrich

/-- A record pushed into `results` by the enrichment `scrapeProfiles`
(src/unnamed/part_000): `\x7bprofile: profilePage.url(), currentCompany\x7d` on
success, `\x7bprofile: null, error: "Could not extract link"\x7d` when the card
has no profile anchor, and `\x7bprofile: profileLink, error\x7d` when processing
the opened profile page throws. -/
inductive ERecord where
  | success (profile : String) (currentCompany : Option String)
  | linkMissing
  | detailFailed (profile : String) (errorText : String)
deriving Repr, DecidableEq

/-- One observable action of the per-entity loop: opening the secondary
profile page for entity `i`, pushing a record, or closing that page. -/
inductive EAction where
  | openPage (i : Nat)
  | emit (r : ERecord)
  | closePage (i : Nat)
deriving Repr, DecidableEq

/-- Outcomes of the awaited steps of the enrichment pipeline:

* `pageLoad` / `waitCards` — `page.goto` and `page.waitForSelector` on the
  listing page;
* `numCards` — `profileCards.length` from the initial `page.$$`;
* `cardAt i` — whether the re-query `(await page.$$(...))[i]` still yields a
  card (the `if (!card) continue` guard);
* `linkAt i` — `card.$eval('a[href^=...]', a => a.href)`, `none` when the
  `$eval` throws because no such anchor exists;
* `detailNav i` — `profilePage.goto(profileLink, ...)` then
  `profilePage.url()`;
* `detailWait i` — `profilePage.waitForSelector('button[aria-label^="Current company:"]', 10000)`;
* `buttonAt i` — the follow-up `profilePage.$` for the same selector:
  `none` if the button is gone (`if (button)` false), `some l` with `l` the
  `aria-label` attribute (`none` inside when the attribute is null, in which
  case `ariaLabel.match` throws a TypeError caught by the entity's catch). -/
structure EnrichWorld where
  pageLoad : Except String Unit
  waitCards : Except String Unit
  numCards : Nat
  cardAt : Nat → Bool
  linkAt : Nat → Option String
  detailNav : Nat → Except String String
  detailWait : Nat → Except String Unit
  buttonAt : Nat → Option (Option String)

/-- The regex extraction
`ariaLabel.match(/Current company:\s*(.*?)\.\s*Click to skip/)` followed by
`match[1].trim()`: the text after the first "Current company:" and before
the first ". Click to skip", trimmed (the `\s*` gaps are approximated by
the trims and by the literal single space of the marker). -/
def parseCompany (label : String) : Option String :=
  match label.splitOn "Current company:" with
  | _ :: afterMarker :: _ =>
    match afterMarker.splitOn ". Click to skip" with
    | company :: _ :: _ => some (jsTrim company)
    | _ => none
  | _ => none

/-- The try-block over an opened profile page (src/unnamed/part_000 lines
142–165): navigation, selector wait, button re-query, label read and regex
match, every throw caught into `\x7bprofile: profileLink, error\x7d`; an absent
button or unmatched label leaves `currentCompany` null but still succeeds. -/
def processDetail (w : EnrichWorld) (i : Nat) (link : String) : ERecord :=
  match w.detailNav i with
  | .error e => .detailFailed link e
  | .ok finalUrl =>
    match w.detailWait i with
    | .error e => .detailFailed link e
    | .ok _ =>
      match w.buttonAt i with
      | none => .success finalUrl none
      | some none => .detailFailed link "TypeError: ariaLabel is null"
      | some (some label) => .success finalUrl (parseCompany label)

/-- One iteration of the per-card `for` loop (src/unnamed/part_000 lines
123–168) for index `i`: a vanished card is skipped with *no* record
(`continue`); a card without a profile anchor emits the degraded
link-missing record and opens no page; otherwise the secondary page is
opened, exactly one record (success or degraded) is pushed, and the page is
closed after the try/catch. -/
def enrichStep (w : EnrichWorld) (i : Nat) : List EAction :=
  if w.cardAt i then
    match w.linkAt i with
    | none => [.emit .linkMissing]
    | some link => [.openPage i, .emit (processDetail w i link), .closePage i]
  else []

/-- The whole per-card loop, over indices `0 .. profileCards.length - 1`. -/
def enrichActions (w : EnrichWorld) : List EAction :=
  ((List.range w.numCards).map (enrichStep w)).flatten

/-- The `results` list an action trace pushes, in order. -/
def actionRecords (as : List EAction) : List ERecord :=
  as.filterMap fun a => match a with | .emit r => some r | _ => none

/-- Observable outcome of the enrichment `scrapeProfiles`: the settled
value (`.ok results` for the returned `\x7bresults\x7d`, `.error` for an uncaught
throw from the listing-page steps), the per-entity action trace, and
whether `browser.close()` (line 170) was reached. -/
structure EnrichOutcome where
  result : Except String (List ERecord)
  actions : List EAction
  browserClosed : Bool
deriving Repr

/-- Shallow embedding of the enrichment `scrapeProfiles` (src/unnamed/
part_000 lines 94–172).  Browser launch, context creation and cookie
injection are modelled as succeeding (no claim concerns their failure).  As
in the streaming variant there is no try/finally: a throw from the listing
page's `goto` or `waitForSelector` propagates with the browser never
closed. -/
def scrapeProfiles (w : EnrichWorld) (url : String) (fields : List String)
    (cookies : Option (List String)) : EnrichOutcome :=
  match w.pageLoad with
  | .error e => { result := .error e, actions := [], browserClosed := false }
  | .ok _ =>
    match w.waitCards with
    | .error e => { result := .error e, actions := [], browserClosed := false }
    | .ok _ =>
      let as := enrichActions w
      { result := .ok (actionRecords as), actions := as, browserClosed := true }

/-- An HTTP response of the POST /scrape handler. -/
inductive PostResponse where
  | badRequest (errorText : String)
  | serverError (errorText : String)
  | okJson (results : List ERecord)
deriving Repr, DecidableEq

/-- The HTTP status of each response shape (`res.status(400)`,
`res.status(500)`, and the default 200 of `res.json`). -/
def statusOf : PostResponse → Nat
  | .badRequest _ => 400
  | .serverError _ => 500
  | .okJson _ => 200

/-- Shallow embedding of the POST /scrape handler (src/unnamed/part_000
lines 180–193): a missing `url` in the body is answered with 400 before
`scrapeProfiles` — and hence the browser launch it starts with — is ever
invoked (second component `false`); otherwise the scrape runs (second
component `true`), a throw is answered with 500 and a result with
`res.json(data)`. -/
def appPostScrape (w : EnrichWorld) (url : Option String) (fields : List String)
    (cookies : Option (List String)) : PostResponse × Bool :=
  match url with
  | none => (.badRequest "URL is required", false)
  | some u =>
    match (scrapeProfiles w u fields cookies).result with
    | .error e => (.serverError e, true)
    | .ok rs => (.okJson rs, true)

end Enrich

/-! ## Helper lemmas -/

theorem pagLoop_batches_le (w : Server.PageWorld) (mp : Nat) :
    ∀ fuel p u evs bs cks,
      (Server.pagLoop w mp fuel p u evs bs cks).batches.length ≤ bs.length + fuel := by
  intro fuel
  induction fuel with
  | zero => intro p u evs bs cks; simp [Server.pagLoop]
  | succ n ih =>
    intro p u evs bs cks
    unfold Server.pagLoop
    cases w.load p with
    | error e => simp
    | ok _ =>
      cases w.waitCards p with
      | error e => simp
      | ok _ =>
        by_cases hp : p < mp
        · simp only [if_pos hp]
          by_cases hn : (w.nextButtons p).length > 0
          · simp only [if_pos hn]
            cases w.clickRes p with
            | error e => simp
            | ok _ =>
              cases w.navRes p with
              | error e => simp
              | ok u2 =>
                refine le_trans (ih (p+1) u2 _ _ _) ?_
                simp
                omega
          · simp only [if_neg hn]; simp
        · simp only [if_neg hp]; simp

theorem scrapeProfiles_batches (w : Server.PageWorld)
    (svc : Nat → String → Except String (List String)) (url : String)
    (fields : List String) (cookies : Option (List String)) :
    (Server.scrapeProfiles w svc url fields cookies).batches =
      (Server.paginate w url).batches := by
  unfold Server.scrapeProfiles
  rcases h : (Server.paginate w url).fatal with _ | e <;> simp [h]

theorem scrapeProfiles_browserClosed (w : Server.PageWorld)
    (svc : Nat → String → Except String (List String)) (url : String)
    (fields : List String) (cookies : Option (List String)) :
    (Server.scrapeProfiles w svc url fields cookies).browserClosed =
      (Server.paginate w url).fatal.isNone := by
  unfold Server.scrapeProfiles
  rcases h : (Server.paginate w url).fatal with _ | e <;> simp [h]

theorem extractAll_all_ok (svc : Nat → String → Except String (List String)) :
    ∀ items : List (Nat × String),
      (∀ p ∈ items, exceptFailed (svc p.1 p.2) = false) →
      (Server.extractAll svc items).2 = .ok (items.map fun p => exceptVal (svc p.1 p.2)) := by
  intro items
  induction items with
  | nil => intro _; simp [Server.extractAll]
  | cons hd tl ih =>
    intro h
    obtain ⟨i, html⟩ := hd
    have hhd := h (i, html) (List.mem_cons_self _ _)
    have htl := ih fun p hp => h p (List.mem_cons_of_mem _ hp)
    unfold Server.extractAll
    cases hs : svc i html with
    | error e => rw [hs] at hhd; simp [exceptFailed] at hhd
    | ok r => simp [htl, hs, exceptVal]

theorem extractAll_some_err (svc : Nat → String → Except String (List String)) :
    ∀ items : List (Nat × String),
      (∃ p ∈ items, exceptFailed (svc p.1 p.2) = true) →
      exceptFailed (Server.extractAll svc items).2 = true := by
  intro items
  induction items with
  | nil => rintro ⟨p, hp, _⟩; simp at hp
  | cons hd tl ih =>
    rintro ⟨p, hp, hfail⟩
    obtain ⟨i, html⟩ := hd
    unfold Server.extractAll
    cases hs : svc i html with
    | error e => simp [exceptFailed, hs]
    | ok r =>
      have hmem : p ∈ tl := by
        rcases List.mem_cons.mp hp with heq | hmem
        · exfalso
          have hcontra : exceptFailed (svc i html) = true := by rw [heq] at hfail; exact hfail
          rw [hs] at hcontra
          simp [exceptFailed] at hcontra
        · exact hmem
      have htail := ih ⟨p, hmem, hfail⟩
      cases ht : (Server.extractAll svc tl).2 with
      | error e => simp [exceptFailed, hs, ht]
      | ok ls => rw [ht] at htail; simp [exceptFailed] at htail

/-! ## Concrete worlds used by counterexamples and witnesses -/

/-- A run in which page 1 loads, shows exactly one result card and has no
next button. -/
def wOnePage : Server.PageWorld :=
  { load := fun _ => .ok (), waitCards := fun _ => .ok (),
    cards := fun p => if p = 1 then ["<div>card</div>"] else [],
    nextButtons := fun _ => [], clickRes := fun _ => .ok (),
    navRes := fun _ => .ok "https://example.test/page2" }

/-- A run in which the wait for result cards times out on page 1. -/
def wTimeout : Server.PageWorld :=
  { load := fun _ => .ok (),
    waitCards := fun _ => .error "TimeoutError: waiting for selector",
    cards := fun _ => [], nextButtons := fun _ => [],
    clickRes := fun _ => .ok (), navRes := fun _ => .ok "u" }

/-- A run in which page 1 shows two result cards and has no next button. -/
def wTwoCards : Server.PageWorld :=
  { load := fun _ => .ok (), waitCards := fun _ => .ok (),
    cards := fun p => if p = 1 then ["<a>", "<bb>"] else [],
    nextButtons := fun _ => [], clickRes := fun _ => .ok (),
    navRes := fun _ => .ok "u" }

/-- An extraction service that always answers with a valid but empty JSON
array. -/
def svcEmptyArray : Nat → String → Except String (List String) := fun _ _ => .ok []

/-- An extraction service whose every request fails. -/
def svcFail : Nat → String → Except String (List String) := fun _ _ => .error "boom"

/-- An extraction service returning one record per request, tagged with the
request index — so distinct responses identify distinct requests. -/
def svcMark : Nat → String → Except String (List String) :=
  fun i _ => .ok ["R" ++ toString i]


/-! ## Claims -/

/-- C5: for every invocation — every world of browser-step outcomes, hence
in particular worlds where a next button is present on every page — the
pagination loop of `scrapeProfiles` contributes at most 2 page batches: the
bound `maxPages = 2` is enforced by the loop guard itself, independent of
next-control availability. -/
theorem c5_pagination_bounded (w : Server.PageWorld)
    (svc : Nat → String → Except String (List String)) (url : String)
    (fields : List String) (cookies : Option (List String)) :
    (Server.scrapeProfiles w svc url fields cookies).batches.length ≤ 2 := by
  rw [scrapeProfiles_batches]
  unfold Server.paginate
  exact le_trans (pagLoop_batches_le w 2 2 1 url [] [] []) (by simp)

/-- C3 (counterexample): when the wait for listing-entry markers times out
on iteration 1, the invocation does end with a fatal error and zero
batches, but — contrary to the claim — the browser teardown is *not*
executed: `scrapeProfiles` has no try/finally around the pagination loop,
so the exception propagates past `browser.close()`. -/
theorem c3_counterexample_browser_leak :
    (Server.scrapeProfiles wTimeout svcFail "u" [] none).browserClosed = false ∧
    (Server.scrapeProfiles wTimeout svcFail "u" [] none).result =
      .error "TimeoutError: waiting for selector" ∧
    (Server.scrapeProfiles wTimeout svcFail "u" [] none).batches = [] :=
  ⟨rfl, rfl, rfl⟩

/-- C3 (amended): the browser is closed exactly when pagination finishes
without a fatal error — so it *is* closed on success, on extraction-service
failure, and on caught pagination-advance failures, but it is *not* closed
when `page.goto` or the content wait throws (those errors propagate
uncaught and skip `browser.close()`). -/
theorem c3_amended_close_iff_no_fatal (w : Server.PageWorld)
    (svc : Nat → String → Except String (List String)) (url : String)
    (fields : List String) (cookies : Option (List String)) :
    (Server.scrapeProfiles w svc url fields cookies).browserClosed =
      (Server.paginate w url).fatal.isNone :=
  scrapeProfiles_browserClosed w svc url fields cookies

/-- C1 (counterexample): with one collected fragment and an extraction
service that succeeds with a valid but empty JSON array, the assembled
result has 0 records for 1 fragment — the claimed cardinality invariant
fails on the success path, where the record count is whatever the service
returns. -/
theorem c1_counterexample_cardinality :
    (Server.scrapeProfiles wOnePage svcEmptyArray "u" [] none).result =
      .ok ([] : List Server.SRecord) ∧
    (Server.paginate wOnePage "u").batches.flatten.length = 1 :=
  ⟨rfl, rfl⟩

/-- C1 (amended): cardinality is preserved exactly on the degraded path —
if any per-fragment extraction request fails, the result has exactly one
(degraded) record per collected fragment; when every request succeeds, the
number of records equals the total number of objects the service returned
across all requests, which matches the fragment count only if the service
returns exactly one object per request. -/
theorem c1_amended_cardinality (w : Server.PageWorld)
    (svc : Nat → String → Except String (List String)) (url : String)
    (fields : List String) (cookies : Option (List String))
    (rs : List Server.SRecord)
    (hres : (Server.scrapeProfiles w svc url fields cookies).result = .ok rs) :
    ((∃ p ∈ (Server.paginate w url).batches.flatten.enum,
        exceptFailed (svc p.1 p.2) = true) →
      rs.length = (Server.paginate w url).batches.flatten.length) ∧
    ((∀ p ∈ (Server.paginate w url).batches.flatten.enum,
        exceptFailed (svc p.1 p.2) = false) →
      rs.length =
        ((Server.paginate w url).batches.flatten.enum.map
            fun p => (exceptVal (svc p.1 p.2)).length).sum) := by
  unfold Server.scrapeProfiles at hres
  rcases hf : (Server.paginate w url).fatal with _ | e
  · simp only [hf] at hres
    constructor
    · intro hex
      have herr := extractAll_some_err svc _ hex
      cases he : (Server.extractAll svc (Server.paginate w url).batches.flatten.enum).2 with
      | ok ls => rw [he] at herr; simp [exceptFailed] at herr
      | error e0 =>
        rw [he] at hres
        simp only [Except.ok.injEq] at hres
        subst hres
        simp [Function.comp_def]
    · intro hall
      have hok := extractAll_all_ok svc _ hall
      rw [hok] at hres
      simp only [Except.ok.injEq] at hres
      subst hres
      simp [Function.comp_def]
  · simp [hf] at hres

/-- C1 (witness): the amended cardinality law at concrete runs — a failing
service degrades the single fragment to exactly one record, and an
all-empty-array service yields as many records as the service returned. -/
theorem c1_amended_cardinality_witness :
    [Server.SRecord.degraded "OpenAI processing failed" "<div>card</div>"].length =
      (Server.paginate wOnePage "u").batches.flatten.length ∧
    ([] : List Server.SRecord).length =
      ((Server.paginate wOnePage "u").batches.flatten.enum.map
          fun p => (exceptVal (svcEmptyArray p.1 p.2)).length).sum :=
  ⟨(c1_amended_cardinality wOnePage svcFail "u" [] none _ rfl).1
      ⟨(0, "<div>card</div>"), by decide, by decide⟩,
   (c1_amended_cardinality wOnePage svcEmptyArray "u" [] none _ rfl).2 (by decide)⟩

/-- C2: all-or-nothing batch semantics of the extraction stage — if any
extraction request fails, *every* collected fragment is degraded to the
record carrying the explicit error marker and the original raw fragment
(including fragments whose own requests succeeded); and when every request
succeeds, the assembled result contains only service records and no
degraded record. -/
theorem c2_all_or_nothing (w : Server.PageWorld)
    (svc : Nat → String → Except String (List String)) (url : String)
    (fields : List String) (cookies : Option (List String))
    (rs : List Server.SRecord)
    (hres : (Server.scrapeProfiles w svc url fields cookies).result = .ok rs) :
    ((∃ p ∈ (Server.paginate w url).batches.flatten.enum,
        exceptFailed (svc p.1 p.2) = true) →
      rs = (Server.paginate w url).batches.flatten.map
        fun html => Server.SRecord.degraded "OpenAI processing failed" html) ∧
    ((∀ p ∈ (Server.paginate w url).batches.flatten.enum,
        exceptFailed (svc p.1 p.2) = false) →
      ∀ r ∈ rs, ∃ v, r = Server.SRecord.svc v) := by
  unfold Server.scrapeProfiles at hres
  rcases hf : (Server.paginate w url).fatal with _ | e
  · simp only [hf] at hres
    constructor
    · intro hex
      have herr := extractAll_some_err svc _ hex
      cases he : (Server.extractAll svc (Server.paginate w url).batches.flatten.enum).2 with
      | ok ls => rw [he] at herr; simp [exceptFailed] at herr
      | error e0 =>
        rw [he] at hres
        simp only [Except.ok.injEq] at hres
        exact hres.symm
    · intro hall r hr
      have hok := extractAll_all_ok svc _ hall
      rw [hok] at hres
      simp only [Except.ok.injEq] at hres
      subst hres
      rcases List.mem_map.mp hr with ⟨v, _, hv⟩
      exact ⟨v, hv.symm⟩
  · simp [hf] at hres

/-- C2 (witness): the two halves of the all-or-nothing law at concrete
runs — a failing service degrades the lone fragment, a succeeding service
produces only service records. -/
theorem c2_all_or_nothing_witness :
    [Server.SRecord.degraded "OpenAI processing failed" "<div>card</div>"] =
      ((Server.paginate wOnePage "u").batches.flatten.map
        fun html => Server.SRecord.degraded "OpenAI processing failed" html) ∧
    (∀ r ∈ ([Server.SRecord.svc "R0"] : List Server.SRecord),
      ∃ v, r = Server.SRecord.svc v) :=
  ⟨(c2_all_or_nothing wOnePage svcFail "u" [] none _ rfl).1
      ⟨(0, "<div>card</div>"), by decide, by decide⟩,
   (c2_all_or_nothing wOnePage svcMark "u" [] none _ rfl).2 (by decide)⟩

set_option maxRecDepth 8000 in
/-- C4 (code evaluation at the failing input): one collected page batch of
two fragments produces *two* extraction requests — one per fragment, with
per-request responses R0 and R1 — not one request per batch; and the
request prompt built for the single 3-character fragment `<a>` announces
"3 cards", because `profilesHtml.length` is the character count of the one
fragment string the request actually carries. -/
theorem c4_requests_are_per_fragment :
    (Server.scrapeProfiles wTwoCards svcMark "u" [] none).batches = [["<a>", "<bb>"]] ∧
    (Server.scrapeProfiles wTwoCards svcMark "u" [] none).result =
      .ok [Server.SRecord.svc "R0", Server.SRecord.svc "R1"] ∧
    Server.openAIUserContent "<a>" =
      "Extract information from these LinkedIn profile cards (3 cards). For each card, create an object with these fields: name, headline, location, currentCompany, profilePhotoUrl, profileUrl. Return ONLY a JSON array of these objects. Do not include any other text or explanation. Profile Cards HTML: \"<a>\"" :=
  ⟨rfl, rfl, by decide⟩

theorem pagLoop_clicks_extend (w : Server.PageWorld) (mp : Nat) :
    ∀ fuel p u evs bs cks, ∃ suf,
      (Server.pagLoop w mp fuel p u evs bs cks).clicks = cks ++ suf := by
  intro fuel
  induction fuel with
  | zero => intro p u evs bs cks; exact ⟨[], by simp [Server.pagLoop]⟩
  | succ n ih =>
    intro p u evs bs cks
    unfold Server.pagLoop
    cases w.load p with
    | error e => exact ⟨[], by simp⟩
    | ok _ =>
      cases w.waitCards p with
      | error e => exact ⟨[], by simp⟩
      | ok _ =>
        by_cases hp : p < mp
        · simp only [if_pos hp]
          by_cases hn : (w.nextButtons p).length > 0
          · simp only [if_pos hn]
            cases w.clickRes p with
            | error e => exact ⟨[(w.nextButtons p).getLastD 0], by simp⟩
            | ok _ =>
              cases w.navRes p with
              | error e => exact ⟨[(w.nextButtons p).getLastD 0], by simp⟩
              | ok u2 =>
                obtain ⟨s, hs⟩ := ih (p+1) u2
                  (((evs ++ [Server.ev "playwright-scraping" "Loading LinkedIn page"]) ++
                    [Server.ev "playwright-scraping" "LinkedIn page loaded",
                     Server.ev "playwright-scraping" "Waiting for search result cards"] ++
                    [Server.ev "playwright-scraping" "Search result cards found",
                     Server.ev "playwright-scraping" ("Extracting profile cards on " ++ toString p),
                     Server.ev "playwright-scraping" ("Extracted profile cards on page " ++ toString p)] ++
                    [Server.ev "playwright-scraping" "Attempting to navigate to next page"] ++
                    [Server.ev "playwright-scraping" "Clicked next button. Waiting for navigation"] ++
                    [Server.ev "playwright-scraping" "Browser navigated to next page"]))
                  (bs ++ [w.cards p]) (cks ++ [(w.nextButtons p).getLastD 0])
                exact ⟨[(w.nextButtons p).getLastD 0] ++ s, by rw [hs]; simp⟩
          · simp only [if_neg hn]
            exact ⟨[], by simp⟩
        · simp only [if_neg hp]
          exact ⟨[], by simp⟩

/-- C6: the advance step of pagination — given iteration 1 loads and finds
content, (i) an absent next control terminates pagination normally (no
error-phase event) with exactly the one collected batch; (ii) when next
controls exist, the button actually clicked (first recorded click) is the
*last* of them; (iii) a click failure, and (iv) a navigation failure after
a successful click, are caught: pagination ends without a fatal error and
the already-extracted batch is preserved. -/
theorem c6_advance_step (w : Server.PageWorld) (url : String)
    (hl : w.load 1 = .ok ()) (hw : w.waitCards 1 = .ok ()) :
    (w.nextButtons 1 = [] →
      (Server.paginate w url).batches = [w.cards 1] ∧
      (Server.paginate w url).fatal = none ∧
      ∀ e ∈ (Server.paginate w url).events, e.phase ≠ "error") ∧
    (w.nextButtons 1 ≠ [] →
      (Server.paginate w url).clicks.head? = some ((w.nextButtons 1).getLastD 0)) ∧
    (w.nextButtons 1 ≠ [] → exceptFailed (w.clickRes 1) = true →
      (Server.paginate w url).fatal = none ∧
      (Server.paginate w url).batches = [w.cards 1]) ∧
    (w.nextButtons 1 ≠ [] → w.clickRes 1 = .ok () → ∀ e0, w.navRes 1 = .error e0 →
      (Server.paginate w url).fatal = none ∧
      (Server.paginate w url).batches = [w.cards 1]) := by
  refine ⟨?_, ?_, ?_, ?_⟩
  · intro hnb
    unfold Server.paginate Server.pagLoop
    simp only [hl, hw, hnb]
    refine ⟨by simp, by simp, ?_⟩
    simp [Server.ev]
  · intro hnb
    have hlen : (w.nextButtons 1).length > 0 := List.length_pos.mpr hnb
    unfold Server.paginate Server.pagLoop
    simp only [hl, hw, if_pos hlen]
    cases hc : w.clickRes 1 with
    | error e => simp
    | ok _ =>
      cases hn : w.navRes 1 with
      | error e => simp
      | ok u2 =>
        obtain ⟨s, hs⟩ := pagLoop_clicks_extend w 2 1 2 u2
          (([] ++ [Server.ev "playwright-scraping" "Loading LinkedIn page"]) ++
            [Server.ev "playwright-scraping" "LinkedIn page loaded",
             Server.ev "playwright-scraping" "Waiting for search result cards"] ++
            [Server.ev "playwright-scraping" "Search result cards found",
             Server.ev "playwright-scraping" ("Extracting profile cards on " ++ toString 1),
             Server.ev "playwright-scraping" ("Extracted profile cards on page " ++ toString 1)] ++
            [Server.ev "playwright-scraping" "Attempting to navigate to next page"] ++
            [Server.ev "playwright-scraping" "Clicked next button. Waiting for navigation"] ++
            [Server.ev "playwright-scraping" "Browser navigated to next page"])
          ([] ++ [w.cards 1]) ([] ++ [(w.nextButtons 1).getLastD 0])
        simp at hs ⊢
        rw [hs]
        simp
  · intro hnb hfail
    have hlen : (w.nextButtons 1).length > 0 := List.length_pos.mpr hnb
    unfold Server.paginate Server.pagLoop
    cases hc : w.clickRes 1 with
    | error e => simp [hl, hw, if_pos hlen, hc]
    | ok _ => rw [hc] at hfail; simp [exceptFailed] at hfail
  · intro hnb hc e0 hn
    have hlen : (w.nextButtons 1).length > 0 := List.length_pos.mpr hnb
    unfold Server.paginate Server.pagLoop
    simp [hl, hw, if_pos hlen, hc, hn]

/-- A run with two next buttons on page 1 whose click throws. -/
def wNextClickFail : Server.PageWorld :=
  { load := fun _ => .ok (), waitCards := fun _ => .ok (),
    cards := fun p => if p = 1 then ["<c>"] else [],
    nextButtons := fun p => if p = 1 then [7, 9] else [],
    clickRes := fun _ => .error "click failed", navRes := fun _ => .ok "u2" }

/-- A run with one next button whose click succeeds but whose navigation
wait times out. -/
def wNextNavFail : Server.PageWorld :=
  { load := fun _ => .ok (), waitCards := fun _ => .ok (),
    cards := fun p => if p = 1 then ["<c2>"] else [],
    nextButtons := fun p => if p = 1 then [3] else [],
    clickRes := fun _ => .ok (), navRes := fun _ => .error "nav timeout" }

/-- C6 (witness): the advance-step properties at concrete runs — normal
termination with one batch when no next button exists; the last of two
next buttons is the one clicked; click and navigation failures are caught
with the collected batch preserved. -/
theorem c6_advance_step_witness :
    (Server.paginate wOnePage "u").fatal = none ∧
    (Server.paginate wNextClickFail "u").clicks.head? = some 9 ∧
    ((Server.paginate wNextClickFail "u").fatal = none ∧
      (Server.paginate wNextClickFail "u").batches = [["<c>"]]) ∧
    ((Server.paginate wNextNavFail "u").fatal = none ∧
      (Server.paginate wNextNavFail "u").batches = [["<c2>"]]) :=
  ⟨((c6_advance_step wOnePage "u" rfl rfl).1 rfl).2.1,
   (c6_advance_step wNextClickFail "u" rfl rfl).2.1 (by decide),
   (c6_advance_step wNextClickFail "u" rfl rfl).2.2.1 (by decide) rfl,
   (c6_advance_step wNextNavFail "u" rfl rfl).2.2.2 (by decide) rfl "nav timeout" rfl⟩

/-- C7: response handling of `testOpenAIBatch` — (i) an error object in the
service response is a hard failure, decided before and independently of any
JSON parsing of content; (ii) if direct parsing of the trimmed content
succeeds, its value is returned; (iii) if direct parsing fails, the
code-fence strip is applied and parsing is retried exactly once, returning
its value on success; (iv) if the retry also fails, the request fails. -/
theorem c7_response_handling (parse : String → Option (List String))
    (resp : Server.OpenAIResponse) :
    (∀ m, resp.errorObj = some m →
      Server.testOpenAIBatch parse resp = .error ("OpenAI API Error: " ++ m)) ∧
    (resp.errorObj = none → ∀ v, parse (jsTrim resp.content) = some v →
      Server.testOpenAIBatch parse resp = .ok v) ∧
    (resp.errorObj = none → parse (jsTrim resp.content) = none →
      ∀ v, parse (Server.stripFence (jsTrim resp.content)) = some v →
      Server.testOpenAIBatch parse resp = .ok v) ∧
    (resp.errorObj = none → parse (jsTrim resp.content) = none →
      parse (Server.stripFence (jsTrim resp.content)) = none →
      exceptFailed (Server.testOpenAIBatch parse resp) = true) := by
  refine ⟨?_, ?_, ?_, ?_⟩
  · intro m hm
    simp [Server.testOpenAIBatch, hm]
  · intro he v hv
    simp [Server.testOpenAIBatch, he, hv]
  · intro he hv1 v hv2
    simp [Server.testOpenAIBatch, he, hv1, hv2]
  · intro he hv1 hv2
    simp [Server.testOpenAIBatch, he, hv1, hv2, exceptFailed]

/-- C7 (witness): the hard-failure and fence-strip branches at concrete
inputs — an error-object response fails with the API error message for a
parse oracle that would otherwise succeed, and a fenced `[]` payload is
parsed on the single retry after stripping. -/
theorem c7_response_handling_witness :
    Server.testOpenAIBatch (fun s => if s = "[]" then some [] else none)
        { errorObj := some "rate limited", content := "[]" } =
      .error ("OpenAI API Error: " ++ "rate limited") ∧
    Server.testOpenAIBatch (fun s => if s = "[]" then some [] else none)
        { errorObj := none, content := "```json\n[]\n```" } = .ok [] :=
  ⟨(c7_response_handling (fun s => if s = "[]" then some [] else none)
      { errorObj := some "rate limited", content := "[]" }).1 "rate limited" rfl,
   (c7_response_handling (fun s => if s = "[]" then some [] else none)
      { errorObj := none, content := "```json\n[]\n```" }).2.2.1 rfl (by decide) [] (by decide)⟩

theorem actionRecords_append (a b : List Enrich.EAction) :
    Enrich.actionRecords (a ++ b) =
      Enrich.actionRecords a ++ Enrich.actionRecords b := by
  simp [Enrich.actionRecords]

theorem enrichRecords_count (w : Enrich.EnrichWorld) :
    ∀ L : List Nat,
      (Enrich.actionRecords ((L.map (Enrich.enrichStep w)).flatten)).length =
        (L.filter fun i => w.cardAt i).length := by
  intro L
  induction L with
  | nil => simp [Enrich.actionRecords]
  | cons i tl ih =>
    simp only [List.map_cons, List.flatten_cons, actionRecords_append,
      List.length_append, ih, List.filter_cons]
    by_cases h : w.cardAt i
    · cases hl : w.linkAt i <;>
        simp [Enrich.enrichStep, Enrich.actionRecords, h, hl] <;> omega
    · simp [Enrich.enrichStep, Enrich.actionRecords, h]

theorem enrichStep_open_iff_close (w : Enrich.EnrichWorld) (i j : Nat) :
    (Enrich.EAction.openPage i ∈ Enrich.enrichStep w j ↔
      Enrich.EAction.closePage i ∈ Enrich.enrichStep w j) := by
  unfold Enrich.enrichStep
  by_cases h : w.cardAt j
  · cases hl : w.linkAt j <;> simp [h, hl]
  · simp [h]

theorem enrichStep_subset (w : Enrich.EnrichWorld) (i : Nat) (hi : i < w.numCards) :
    ∀ a ∈ Enrich.enrichStep w i, a ∈ Enrich.enrichActions w := by
  intro a ha
  unfold Enrich.enrichActions
  rw [List.mem_flatten]
  exact ⟨_, List.mem_map.mpr ⟨i, List.mem_range.mpr hi, rfl⟩, ha⟩

/-- C8: per-entity error isolation in the enrichment pipeline — given the
listing page loads and shows cards: the invocation returns exactly the
records of the per-entity trace; an entity without an extractable link
contributes the degraded `\x7bprofile: null, error\x7d` record and processing
continues; an entity with a link always contributes its (success or
degraded) record; a degraded detail record always carries the entity's own
link as its profile; every entity still present at re-query contributes
exactly one record regardless of other entities' failures; and the
secondary page of an entity is closed exactly when it was opened. -/
theorem c8_per_entity_isolation (w : Enrich.EnrichWorld) (url : String)
    (fields : List String) (cookies : Option (List String))
    (hl : w.pageLoad = .ok ()) (hw : w.waitCards = .ok ()) :
    (Enrich.scrapeProfiles w url fields cookies).result =
      .ok (Enrich.actionRecords (Enrich.enrichActions w)) ∧
    (Enrich.scrapeProfiles w url fields cookies).actions = Enrich.enrichActions w ∧
    (∀ i, i < w.numCards → w.cardAt i = true → w.linkAt i = none →
      Enrich.EAction.emit Enrich.ERecord.linkMissing ∈ Enrich.enrichActions w) ∧
    (∀ i, i < w.numCards → w.cardAt i = true → ∀ link, w.linkAt i = some link →
      Enrich.EAction.emit (Enrich.processDetail w i link) ∈ Enrich.enrichActions w) ∧
    (∀ i link p e, Enrich.processDetail w i link = .detailFailed p e → p = link) ∧
    ((Enrich.actionRecords (Enrich.enrichActions w)).length =
      ((List.range w.numCards).filter fun i => w.cardAt i).length) ∧
    (∀ i, Enrich.EAction.openPage i ∈ Enrich.enrichActions w ↔
      Enrich.EAction.closePage i ∈ Enrich.enrichActions w) := by
  refine ⟨?_, ?_, ?_, ?_, ?_, ?_, ?_⟩
  · unfold Enrich.scrapeProfiles
    simp [hl, hw]
  · unfold Enrich.scrapeProfiles
    simp [hl, hw]
  · intro i hi hc hlnk
    refine enrichStep_subset w i hi _ ?_
    simp [Enrich.enrichStep, hc, hlnk]
  · intro i hi hc link hlnk
    refine enrichStep_subset w i hi _ ?_
    simp [Enrich.enrichStep, hc, hlnk]
  · intro i link p e hpd
    unfold Enrich.processDetail at hpd
    cases hn : w.detailNav i with
    | error e2 =>
      rw [hn] at hpd
      injection hpd with h1 h2
      exact h1.symm
    | ok fu =>
      rw [hn] at hpd
      cases hwt : w.detailWait i with
      | error e3 =>
        rw [hwt] at hpd
        injection hpd with h1 h2
        exact h1.symm
      | ok _ =>
        rw [hwt] at hpd
        cases hb : w.buttonAt i with
        | none => rw [hb] at hpd; exact absurd hpd (by simp)
        | some lab =>
          rw [hb] at hpd
          cases lab with
          | none =>
            injection hpd with h1 h2
            exact h1.symm
          | some l => exact absurd hpd (by simp)
  · exact enrichRecords_count w (List.range w.numCards)
  · intro i
    unfold Enrich.enrichActions
    simp only [List.mem_flatten, List.mem_map]
    constructor
    · rintro ⟨l, ⟨j, hj, rfl⟩, hmem⟩
      exact ⟨_, ⟨j, hj, rfl⟩, (enrichStep_open_iff_close w i j).mp hmem⟩
    · rintro ⟨l, ⟨j, hj, rfl⟩, hmem⟩
      exact ⟨_, ⟨j, hj, rfl⟩, (enrichStep_open_iff_close w i j).mpr hmem⟩

/-- An enrichment run with three listed entities: entity 0 has no profile
anchor, entity 1 has a link whose detail navigation fails, and entity 2 has
vanished by re-query time. -/
def wEnrich : Enrich.EnrichWorld :=
  { pageLoad := .ok (), waitCards := .ok (), numCards := 3,
    cardAt := fun i => decide (i ≠ 2),
    linkAt := fun i => if i = 0 then none else some "https://www.linkedin.com/in/x",
    detailNav := fun _ => .error "TimeoutError: navigating",
    detailWait := fun _ => .ok (), buttonAt := fun _ => none }

/-- An enrichment run whose listing-page navigation throws. -/
def wEnrichFatal : Enrich.EnrichWorld :=
  { pageLoad := .error "net timeout", waitCards := .ok (), numCards := 0,
    cardAt := fun _ => false, linkAt := fun _ => none,
    detailNav := fun _ => .ok "x", detailWait := fun _ => .ok (),
    buttonAt := fun _ => none }

/-- C8 (witness): the per-entity isolation properties at a concrete run —
the link-missing record and the failed entity's record are both present,
the record count equals the number of entities still present at re-query,
and entity 1's page open/close pair matches. -/
theorem c8_per_entity_isolation_witness :
    Enrich.EAction.emit Enrich.ERecord.linkMissing ∈ Enrich.enrichActions wEnrich ∧
    Enrich.EAction.emit (Enrich.processDetail wEnrich 1 "https://www.linkedin.com/in/x") ∈
      Enrich.enrichActions wEnrich ∧
    (Enrich.actionRecords (Enrich.enrichActions wEnrich)).length =
      ((List.range wEnrich.numCards).filter fun i => wEnrich.cardAt i).length ∧
    (Enrich.EAction.openPage 1 ∈ Enrich.enrichActions wEnrich ↔
      Enrich.EAction.closePage 1 ∈ Enrich.enrichActions wEnrich) :=
  ⟨(c8_per_entity_isolation wEnrich "u" [] none rfl rfl).2.2.1 0 (by decide) (by decide) rfl,
   (c8_per_entity_isolation wEnrich "u" [] none rfl rfl).2.2.2.1 1 (by decide) (by decide)
      "https://www.linkedin.com/in/x" rfl,
   (c8_per_entity_isolation wEnrich "u" [] none rfl rfl).2.2.2.2.2.1,
   (c8_per_entity_isolation wEnrich "u" [] none rfl rfl).2.2.2.2.2.2 1⟩

/-- C9: the synchronous POST /scrape contract — a missing url is answered
with the 400 bad-request response and, in particular, without ever invoking
the scrape (so no browser resource is acquired); with a url present the
scrape runs, an uncaught scrape error is answered with a 500 response
carrying the error, and a successful scrape is answered with the result
payload directly. -/
theorem c9_sync_endpoint (w : Enrich.EnrichWorld) (fields : List String)
    (cookies : Option (List String)) :
    (Enrich.appPostScrape w none fields cookies =
      (Enrich.PostResponse.badRequest "URL is required", false)) ∧
    (Enrich.statusOf (Enrich.appPostScrape w none fields cookies).1 = 400) ∧
    (∀ u e, (Enrich.scrapeProfiles w u fields cookies).result = .error e →
      Enrich.appPostScrape w (some u) fields cookies =
        (Enrich.PostResponse.serverError e, true) ∧
      Enrich.statusOf (Enrich.appPostScrape w (some u) fields cookies).1 = 500) ∧
    (∀ u rs, (Enrich.scrapeProfiles w u fields cookies).result = .ok rs →
      Enrich.appPostScrape w (some u) fields cookies =
        (Enrich.PostResponse.okJson rs, true)) := by
  refine ⟨rfl, rfl, ?_, ?_⟩
  · intro u e he
    constructor <;> simp [Enrich.appPostScrape, he, Enrich.statusOf]
  · intro u rs hrs
    simp [Enrich.appPostScrape, hrs]

/-- C9 (witness): the three response shapes at concrete runs — 400 with no
scrape invocation for a missing url, 500 for a run whose listing navigation
throws, and the direct result payload for a successful run. -/
theorem c9_sync_endpoint_witness :
    Enrich.appPostScrape wEnrich none [] none =
      (Enrich.PostResponse.badRequest "URL is required", false) ∧
    Enrich.appPostScrape wEnrichFatal (some "u") [] none =
      (Enrich.PostResponse.serverError "net timeout", true) ∧
    Enrich.appPostScrape wEnrich (some "u") [] none =
      (Enrich.PostResponse.okJson
        (Enrich.actionRecords (Enrich.enrichActions wEnrich)), true) :=
  ⟨(c9_sync_endpoint wEnrich [] none).1,
   ((c9_sync_endpoint wEnrichFatal [] none).2.2.1 "u" "net timeout" rfl).1,
   (c9_sync_endpoint wEnrich [] none).2.2.2 "u"
      (Enrich.actionRecords (Enrich.enrichActions wEnrich)) rfl⟩

/-- C10: the streaming GET /scrape endpoint writes the 200 event-stream
head as its very first action, before any input validation or work; no
other head write (and hence no non-200 status) ever occurs; a missing url
is reported only as an in-stream error event (and no result event); and an
uncaught pipeline error is likewise reported as an in-stream error event on
the already-committed 200 response. -/
theorem c10_stream_errors_in_band (w : Server.PageWorld)
    (svc : Nat → String → Except String (List String)) (url : Option String)
    (fieldsQ : Except String (List String))
    (cookiesQ : Except String (Option (List String))) :
    (Server.appGetScrape w svc url fieldsQ cookiesQ).head? =
      some (Server.Wr.head 200 Server.sseHeaders) ∧
    (∀ st hs, Server.Wr.head st hs ∈ Server.appGetScrape w svc url fieldsQ cookiesQ →
      st = 200 ∧ hs = Server.sseHeaders) ∧
    (url = none →
      Server.Wr.sse "error" ∈ Server.appGetScrape w svc url fieldsQ cookiesQ ∧
      Server.Wr.sse "result" ∉ Server.appGetScrape w svc url fieldsQ cookiesQ) ∧
    (∀ u fields cookies e, url = some u → fieldsQ = .ok fields → cookiesQ = .ok cookies →
      (Server.scrapeProfiles w svc u fields cookies).result = .error e →
      Server.Wr.sse "error" ∈ Server.appGetScrape w svc url fieldsQ cookiesQ) := by
  refine ⟨rfl, ?_, ?_, ?_⟩
  · intro st hs hmem
    unfold Server.appGetScrape at hmem
    rcases List.mem_cons.mp hmem with heq | hmem2
    · injection heq with h1 h2
      exact ⟨h1, h2⟩
    · exfalso
      rcases url with _ | u
      · simp at hmem2
      · rcases fieldsQ with e1 | fields
        · simp at hmem2
        · rcases cookiesQ with e2 | cookies
          · simp at hmem2
          · rcases List.mem_cons.mp hmem2 with heq2 | hmem3
            · exact Server.Wr.noConfusion heq2
            · rcases List.mem_append.mp hmem3 with hmap | hrest
              · rcases List.mem_map.mp hmap with ⟨a, _, ha⟩
                exact Server.Wr.noConfusion ha
              · rcases hres : (Server.scrapeProfiles w svc u fields cookies).result with e3 | rs
                · rw [hres] at hrest; simp at hrest
                · rw [hres] at hrest; simp at hrest
  · intro hu
    subst hu
    refine ⟨?_, ?_⟩ <;> simp [Server.appGetScrape]
  · intro u fields cookies e hu hf hc hres
    subst hu; subst hf; subst hc
    unfold Server.appGetScrape
    simp [hres]

/-- C10 (witness): at concrete runs, both failure modes surface as
in-stream error events — a missing url, and a content-wait timeout inside
the pipeline — on responses whose only head write is the initial 200. -/
theorem c10_stream_errors_in_band_witness :
    Server.Wr.sse "error" ∈
      Server.appGetScrape wTimeout svcFail none (.ok []) (.ok none) ∧
    Server.Wr.sse "error" ∈
      Server.appGetScrape wTimeout svcFail (some "u") (.ok []) (.ok none) :=
  ⟨((c10_stream_errors_in_band wTimeout svcFail none (.ok []) (.ok none)).2.2.1 rfl).1,
   (c10_stream_errors_in_band wTimeout svcFail (some "u") (.ok []) (.ok none)).2.2.2
      "u" [] none "TimeoutError: waiting for selector" rfl rfl rfl rfl⟩
